import Mathlib

/-!
Verification of the parameter-extraction / conversation / YAML-rendering core
of the spheron-mcp-plugin repository, shallowly embedded in Lean.

The string-matching functions below embed the JavaScript regular expressions
of `template-processor` (`CPU_REGEX`, `MEMORY_REGEX`, ...) directly: each JS
regex here is a leftmost-position scan (`findFirstPos`) that, at each
position, tries the pattern's alternatives in their written order with the
backtracking a JS engine performs.  `\d+` and `\s*` are greedy; for these
patterns a shorter greedy take can never make the continuation succeed
(the continuations all start with a letter), so the maximal take is exact.
-/

namespace Spheron

/-- Case-insensitive character comparison (the `i` regex flag). -/
def ciEq (a b : Char) : Bool := a.toLower = b.toLower

/-- Match a literal word case-insensitively at the head of the input.
Returns the consumed input characters (the capture keeps the input's own
casing, as a JS capture group does) and the rest. -/
def matchLitCI : List Char → List Char → Option (List Char × List Char)
  | [], s => some ([], s)
  | _ :: _, [] => none
  | p :: ps, c :: cs =>
    if ciEq p c then (matchLitCI ps cs).map (fun pr => (c :: pr.1, pr.2)) else none

/-- Ordered alternation of literal words, as a JS `(w1|w2|...)` group tries
its alternatives left to right. -/
def tryLitsCI : List (List Char) → List Char → Option (List Char × List Char)
  | [], _ => none
  | w :: ws, s => (matchLitCI w s) <|> tryLitsCI ws s

/-- Greedy `\d+`-style take of a maximal digit run. -/
def takeDigits : List Char → List Char × List Char
  | [] => ([], [])
  | c :: cs =>
    if c.isDigit then
      let pr := takeDigits cs
      (c :: pr.1, pr.2)
    else ([], c :: cs)

/-- Greedy `[a-z]+` (with the `i` flag) take of a maximal letter run. -/
def takeLetters : List Char → List Char × List Char
  | [] => ([], [])
  | c :: cs =>
    if c.isAlpha then
      let pr := takeLetters cs
      (c :: pr.1, pr.2)
    else ([], c :: cs)

/-- Greedy `\s*` skip. -/
def skipSpaces : List Char → List Char
  | [] => []
  | c :: cs => if c.isWhitespace then skipSpaces cs else c :: cs

/-- Numeric value of a digit string, as `parseInt(..., 10)` computes it. -/
def natOfDigits (ds : List Char) : Nat :=
  ds.foldl (fun acc c => acc * 10 + (c.toNat - 48)) 0

/-- Leftmost-match scan: a JS `String.match` tries the pattern at each
successive start position and returns the first success. -/
def findFirstPos {α : Type} (f : List Char → Option α) : List Char → Option α
  | [] => f []
  | c :: cs => (f (c :: cs)) <|> findFirstPos f cs

/-- Exact (case-sensitive) list-prefix test. -/
def startsList : List Char → List Char → Bool
  | [], _ => true
  | _ :: _, [] => false
  | p :: ps, c :: cs => (p = c) && startsList ps cs

/-- Exact substring containment, as JS `String.includes`. -/
def containsList (sub : List Char) : List Char → Bool
  | [] => sub.isEmpty
  | c :: cs => startsList sub (c :: cs) || containsList sub cs

/-- `s.includes(sub)` on strings. -/
def strIncludes (s sub : String) : Bool := containsList sub.data s.data

/-- `s.startsWith(pre)` on strings. -/
def strStartsWith (s pre : String) : Bool := startsList pre.data s.data

/-- JS truthiness of an optional string: `undefined` and `""` are falsy. -/
def truthyS : Option String → Bool
  | none => false
  | some s => s ≠ ""

/-- JS truthiness of an optional number: `undefined` and `0` are falsy. -/
def truthyN : Option Nat → Bool
  | none => false
  | some n => n ≠ 0

/-- JS `o || d` for an optional string. -/
def strOr (o : Option String) (d : String) : String :=
  match o with
  | some s => if s ≠ "" then s else d
  | none => d

/-- JS `o || d` for an optional number. -/
def natOr (o : Option Nat) (d : Nat) : Nat :=
  match o with
  | some n => if n ≠ 0 then n else d
  | none => d

/-! ## Parameter model (`ExtractedParams` of `template-processor`) -/

/-- One entry of the `ports` array (`{ port, as?, global? }`). -/
structure PortSpec where
  port : Nat
  asPort : Option Nat
  global : Option Bool
deriving DecidableEq

/-- The optional `gpu` sub-object (`{ units?, model? }`). -/
structure GpuSpec where
  units : Option Nat
  model : Option String
deriving DecidableEq

/-- `ExtractedParams`: every field is optional, an absent field modelling an
absent key of the JS object. -/
structure ExtractedParams where
  image : Option String := none
  pullPolicy : Option String := none
  ports : Option (List PortSpec) := none
  env : Option (List (String × String)) := none
  cpu : Option Nat := none
  memory : Option String := none
  storage : Option String := none
  gpu : Option GpuSpec := none
  name : Option String := none
  duration : Option String := none
  mode : Option String := none
  region : Option String := none
  amount : Option Nat := none
  count : Option Nat := none
deriving DecidableEq

/-- The fixed container image reference used as the default image. -/
def defaultImage : String := "spheronnetwork/jupyter-notebook:pytorch-2.4.1-cuda-enabled"

/-- The default two-port exposure list. -/
def defaultPortsSpec : List PortSpec :=
  [⟨8888, some 8888, some true⟩, ⟨3000, some 3000, some true⟩]

/-- `DEFAULT_PARAMS` of `template-processor`. -/
def DEFAULT_PARAMS : ExtractedParams :=
  { image := some defaultImage
    pullPolicy := some "IfNotPresent"
    ports := some defaultPortsSpec
    env := some [("JUPYTER_TOKEN", "test")]
    cpu := some 16
    memory := some "64Gi"
    storage := some "500Gi"
    gpu := some ⟨some 1, some "rtx6000-ada"⟩
    name := some "py-cuda"
    duration := some "2h"
    mode := some "provider"
    region := some "westcoast"
    amount := some 6
    count := some 1 }

/-- The all-absent parameter set (`{}` in JS). -/
def emptyParams : ExtractedParams := {}

/-! ## Pattern extractor (`extractFromDescription`) -/

/-- `CPU_REGEX = /(\d+)\s*(cores?|cpus?|processors?)/i` tried at one
position; only the digit capture is used by the extractor.  The optional
trailing `s` of each alternative consumes nothing the extractor observes,
so matching the mandatory stem suffices for success. -/
def cpuAt (s : List Char) : Option Nat :=
  let pr := takeDigits s
  if pr.1.isEmpty then none
  else
    match tryLitsCI (["core", "cpu", "processor"].map String.data) (skipSpaces pr.2) with
    | some _ => some (natOfDigits pr.1)
    | none => none

def matchCpu (s : List Char) : Option Nat := findFirstPos cpuAt s

/-- Try the unit alternatives in order; a unit alternative succeeds only if
the continuation (`\s*` then one of `conts`) also matches, mirroring the
regex engine's backtracking across alternatives at one position.  Returns
the captured unit text as matched in the input. -/
def tryUnitThen (units : List String) (conts : List String) (s : List Char) : Option String :=
  match units with
  | [] => none
  | u :: us =>
    match matchLitCI u.data s with
    | some (m, r) =>
      match tryLitsCI (conts.map String.data) (skipSpaces r) with
      | some _ => some (String.mk m)
      | none => tryUnitThen us conts s
    | none => tryUnitThen us conts s

/-- `MEMORY_REGEX = /(\d+)\s*(GB|GiB|G|MB|MiB|M)\s*(RAM|memory)/i` at one
position, returning the digit value and the captured unit. -/
def memAt (s : List Char) : Option (Nat × String) :=
  let pr := takeDigits s
  if pr.1.isEmpty then none
  else
    (tryUnitThen ["GB", "GiB", "G", "MB", "MiB", "M"] ["RAM", "memory"] (skipSpaces pr.2)).map
      (fun u => (natOfDigits pr.1, u))

def matchMemory (s : List Char) : Option (Nat × String) := findFirstPos memAt s

/-- `STORAGE_REGEX = /(\d+)\s*(GB|GiB|G|TB|TiB|T)\s*(storage|disk|space)/i`. -/
def storageAt (s : List Char) : Option (Nat × String) :=
  let pr := takeDigits s
  if pr.1.isEmpty then none
  else
    (tryUnitThen ["GB", "GiB", "G", "TB", "TiB", "T"] ["storage", "disk", "space"] (skipSpaces pr.2)).map
      (fun u => (natOfDigits pr.1, u))

def matchStorage (s : List Char) : Option (Nat × String) := findFirstPos storageAt s

/-- The reachable alternatives of
`GPU_REGEX = /(nvidia|rtx|gtx|a100|h100|t4|v100|rtx\s*\d{4}|rtx\s*\d{4}\s*\w+)/i`.
The two trailing `rtx\s*\d{4}...` alternatives are unreachable: any input
they could match starts with `rtx`, and the earlier `rtx` alternative
already makes the whole (continuation-free) pattern succeed there. -/
def gpuKeywords : List String := ["nvidia", "rtx", "gtx", "a100", "h100", "t4", "v100"]

/-- GPU keyword match at one position; the extractor lowercases the capture. -/
def gpuAt (s : List Char) : Option String :=
  (tryLitsCI (gpuKeywords.map String.data) s).map (fun pr => String.mk (pr.1.map Char.toLower))

def matchGpu (s : List Char) : Option String := findFirstPos gpuAt s

/-- `GPU_COUNT_REGEX = /(\d+)\s*gpus?/i`. -/
def gpuCountAt (s : List Char) : Option Nat :=
  let pr := takeDigits s
  if pr.1.isEmpty then none
  else
    match matchLitCI "gpu".data (skipSpaces pr.2) with
    | some _ => some (natOfDigits pr.1)
    | none => none

def matchGpuCount (s : List Char) : Option Nat := findFirstPos gpuCountAt s

/-- The ordered alternatives of
`DURATION_REGEX = /(\d+)\s*(hours?|hrs?|days?|weeks?|months?)/i`; the greedy
optional `s` makes the engine try the plural form first. -/
def durationUnits : List String :=
  ["hours", "hour", "hrs", "hr", "days", "day", "weeks", "week", "months", "month"]

def durationAt (s : List Char) : Option (Nat × String) :=
  let pr := takeDigits s
  if pr.1.isEmpty then none
  else
    (tryLitsCI (durationUnits.map String.data) (skipSpaces pr.2)).map
      (fun m => (natOfDigits pr.1, String.mk (m.1.map Char.toLower)))

def matchDuration (s : List Char) : Option (Nat × String) := findFirstPos durationAt s

/-- The alternatives of `REGION_REGEX`, in their written order. -/
def regionKeywords : List String :=
  ["us-east", "us-west", "eu-west", "eu-central", "ap-southeast", "ap-northeast",
   "westcoast", "eastcoast"]

def regionAt (s : List Char) : Option String :=
  (tryLitsCI (regionKeywords.map String.data) s).map (fun pr => String.mk (pr.1.map Char.toLower))

def matchRegion (s : List Char) : Option String := findFirstPos regionAt s

/-- Memory unit normalisation: the extractor uppercases the captured unit,
maps G/GB to Gi and M/MB to Mi, and keeps the uppercased unit otherwise. -/
def normMemUnit (u : String) : String :=
  let up := u.toUpper
  if up = "G" ∨ up = "GB" then "Gi"
  else if up = "M" ∨ up = "MB" then "Mi"
  else up

/-- Storage unit normalisation: G/GB to Gi, T/TB to Ti. -/
def normStorageUnit (u : String) : String :=
  let up := u.toUpper
  if up = "G" ∨ up = "GB" then "Gi"
  else if up = "T" ∨ up = "TB" then "Ti"
  else up

/-- GPU model normalisation of `extractFromDescription` (the chain of
`includes`/equality tests on the lowercased capture). -/
def normalizeGpuModel (m : String) : String :=
  if strIncludes m "rtx" && strIncludes m "4090" then "rtx4090"
  else if strIncludes m "rtx" && strIncludes m "6000" && strIncludes m "ada" then "rtx6000-ada"
  else if m = "a100" then "a100"
  else if m = "h100" then "h100"
  else if m = "t4" then "t4"
  else if m = "v100" then "v100"
  else "rtx6000-ada"

/-- Region normalisation of `extractFromDescription`. -/
def normalizeRegion (r : String) : String :=
  if r = "westcoast" ∨ r = "us-west" then "westcoast"
  else if r = "eastcoast" ∨ r = "us-east" then "eastcoast"
  else "westcoast"

/-- Duration canonicalisation: hours to `Nh`, days to `Nd`, weeks to
`(7N)d`, months to `Nmon`. -/
def durationCanon (v : Nat) (unit : String) : Option String :=
  if strStartsWith unit "hour" || strStartsWith unit "hr" then some (toString v ++ "h")
  else if strStartsWith unit "day" then some (toString v ++ "d")
  else if strStartsWith unit "week" then some (toString (v * 7) ++ "d")
  else if strStartsWith unit "month" then some (toString v ++ "mon")
  else none

/-- `calculateAmount`: 3 CST per hour, with day = 24 h and month = 30 d,
defaulting to 6 (two hours) when the duration is absent or unparsable.
The duration is re-parsed with `/(\d+)([a-z]+)/i`. -/
def numLettersAt (s : List Char) : Option (Nat × String) :=
  let pr := takeDigits s
  if pr.1.isEmpty then none
  else
    let lr := takeLetters pr.2
    if lr.1.isEmpty then none
    else some (natOfDigits pr.1, String.mk (lr.1.map Char.toLower))

def calculateAmount (params : ExtractedParams) : Nat :=
  match params.duration with
  | none => 6
  | some d =>
    match findFirstPos numLettersAt d.data with
    | none => 6
    | some vu =>
      if vu.2 = "h" then vu.1 * 3
      else if vu.2 = "d" then vu.1 * 24 * 3
      else if vu.2 = "mon" then vu.1 * 30 * 24 * 3
      else 6

/-- `extractFromDescription`: the regex pass over the raw text.  `amount`
is computed last from the already-extracted duration. -/
def extractFromDescription (description : String) : ExtractedParams :=
  let s := description.data
  let lower := s.map Char.toLower
  let isJup := containsList "jupyter".data lower || containsList "notebook".data lower
  let image : Option String := if isJup then some defaultImage else none
  let gpuModel := (matchGpu s).map normalizeGpuModel
  let gpu : Option GpuSpec :=
    match matchGpuCount s, gpuModel with
    | some n, m => some ⟨some n, m⟩
    | none, some m => some ⟨some 1, some m⟩
    | none, none => none
  let p0 : ExtractedParams :=
    { image := image
      ports := if isJup then some defaultPortsSpec else none
      env := if isJup then some [("JUPYTER_TOKEN", "test")] else none
      cpu := matchCpu s
      memory := (matchMemory s).map (fun pr => toString pr.1 ++ normMemUnit pr.2)
      storage := (matchStorage s).map (fun pr => toString pr.1 ++ normStorageUnit pr.2)
      gpu := gpu
      name :=
        if (match image with
            | some i => decide (i ≠ "") && strIncludes i "jupyter"
            | none => false) then some "py-cuda" else none
      duration := (matchDuration s).bind (fun pr => durationCanon pr.1 pr.2)
      region := (matchRegion s).map normalizeRegion }
  { p0 with amount := some (calculateAmount p0) }

/-! ## Missing-parameter evaluator (`identifyMissingParams`) -/

/-- The GPU-workload test on the image: `params.image && (includes cuda ||
includes pytorch || includes tensorflow)`, with JS string truthiness. -/
def gpuWorkloadImage (image : Option String) : Bool :=
  match image with
  | none => false
  | some i =>
    decide (i ≠ "") &&
      (strIncludes i "cuda" || strIncludes i "pytorch" || strIncludes i "tensorflow")

/-- `identifyMissingParams`: unconditional checks in CPU, memory, storage,
duration order, then the conditional GPU-model check.  `!params.cpu` is JS
truthiness (absent or 0), `!params.gpu` is object presence. -/
def identifyMissingParams (params : ExtractedParams) : List String :=
  (if truthyN params.cpu then [] else ["CPU cores"]) ++
  (if truthyS params.memory then [] else ["memory (RAM)"]) ++
  (if truthyS params.storage then [] else ["storage"]) ++
  (if truthyS params.duration then [] else ["duration"]) ++
  (if gpuWorkloadImage params.image && params.gpu.isNone then ["GPU model"] else [])

/-! ## Defaults merge (`mergeWithDefaults`) -/

/-- JS object spread `{...old, ...new}` on a string-to-string record: keys
of `new` win, other keys of `old` are preserved (keys within each record
are unique). -/
def mergeEnv (old new : List (String × String)) : List (String × String) :=
  old.map (fun kv => (kv.1, ((new.find? (fun kv2 => kv2.1 = kv.1)).map Prod.snd).getD kv.2)) ++
  new.filter (fun kv => old.all (fun kv2 => kv2.1 ≠ kv.1))

/-- `mergeWithDefaults`: top-level spread of `params` over `DEFAULT_PARAMS`
followed by the explicit nested spreads for `gpu` and `env`. -/
def mergeWithDefaults (params : ExtractedParams) : ExtractedParams :=
  { image := params.image <|> DEFAULT_PARAMS.image
    pullPolicy := params.pullPolicy <|> DEFAULT_PARAMS.pullPolicy
    ports := params.ports <|> DEFAULT_PARAMS.ports
    env := some (mergeEnv [("JUPYTER_TOKEN", "test")] (params.env.getD []))
    cpu := params.cpu <|> DEFAULT_PARAMS.cpu
    memory := params.memory <|> DEFAULT_PARAMS.memory
    storage := params.storage <|> DEFAULT_PARAMS.storage
    gpu := some ⟨(params.gpu.bind GpuSpec.units) <|> some 1,
                 (params.gpu.bind GpuSpec.model) <|> some "rtx6000-ada"⟩
    name := params.name <|> DEFAULT_PARAMS.name
    duration := params.duration <|> DEFAULT_PARAMS.duration
    mode := params.mode <|> DEFAULT_PARAMS.mode
    region := params.region <|> DEFAULT_PARAMS.region
    amount := params.amount <|> DEFAULT_PARAMS.amount
    count := params.count <|> DEFAULT_PARAMS.count }

/-! ## Pipeline (`processDescription`, no-enhancer path) and the
conversation-turn merge of the `natural_to_yaml` handler -/

/-- `processDescription` without a Claude API key: extract, identify the
gaps, and merge with the defaults only when nothing is missing. -/
def processDescription (description : String) : ExtractedParams × List String :=
  let params := extractFromDescription description
  let missingParams := identifyMissingParams params
  (if missingParams.isEmpty then mergeWithDefaults params else params, missingParams)

/-- The handler's `{...conversation.currentParams, ...params}`: a plain
shallow spread in which every key present in `new` -- the `gpu` and `env`
objects included, as whole values -- replaces the old one. -/
def spreadMerge (old new : ExtractedParams) : ExtractedParams :=
  { image := new.image <|> old.image
    pullPolicy := new.pullPolicy <|> old.pullPolicy
    ports := new.ports <|> old.ports
    env := new.env <|> old.env
    cpu := new.cpu <|> old.cpu
    memory := new.memory <|> old.memory
    storage := new.storage <|> old.storage
    gpu := new.gpu <|> old.gpu
    name := new.name <|> old.name
    duration := new.duration <|> old.duration
    mode := new.mode <|> old.mode
    region := new.region <|> old.region
    amount := new.amount <|> old.amount
    count := new.count <|> old.count }

/-- The answer-processing step of the `natural_to_yaml` handler: concatenate
`originalDescription ++ " " ++ answer`, re-run the pipeline on the combined
text, and spread the result over the conversation's current parameters. -/
def handleAnswer (originalDescription : String) (currentParams : ExtractedParams)
    (answer : String) : ExtractedParams × List String :=
  let combined := originalDescription ++ " " ++ answer
  let pr := processDescription combined
  (spreadMerge currentParams pr.1, pr.2)

/-- Modelled from the spec: the merge policy as §4.4 words it, for
comparison with the implementation -- top-level fields overridden when the
new extraction provides them, but the GPU sub-object and the environment
mapping merged key-by-key, old keys preserved when not overridden. -/
def specMergeTurnParams (old new : ExtractedParams) : ExtractedParams :=
  { spreadMerge old new with
    gpu :=
      match old.gpu, new.gpu with
      | none, g => g
      | some g, none => some g
      | some g1, some g2 => some ⟨g2.units <|> g1.units, g2.model <|> g1.model⟩
    env :=
      match old.env, new.env with
      | none, e => e
      | some e, none => some e
      | some e1, some e2 => some (mergeEnv e1 e2) }

/-! ## LLM enhancer boundary (`claude-processor`) -/

def braceL : Char := Char.ofNat 123
def braceR : Char := Char.ofNat 125

/-- Suffix of the list starting at the first occurrence of `c`. -/
def dropUntil (c : Char) : List Char → Option (List Char)
  | [] => none
  | x :: xs => if x = c then some (x :: xs) else dropUntil c xs

/-- `response.match(/\x7b[\s\S]*\x7d/)`: the substring from the first
opening brace through the last closing brace, when the closing brace comes
after the opening one. -/
def jsonObjectMatch (s : String) : Option String :=
  match dropUntil braceL s.data with
  | none => none
  | some suffix =>
    match dropUntil braceR suffix.reverse with
    | none => none
    | some revTail => some (String.mk revTail.reverse)

/-- `parseClaudeResponse`, with `JSON.parse` abstracted as an external
parser returning `none` when it throws: no embedded object or a parse
failure falls back to the original parameters; a parsed object with an
absent `amount` (strict `undefined` test in the source) is backfilled from
the pre-enhancement amount or the fixed default 15. -/
def parseClaudeResponse (jsonParse : String → Option ExtractedParams)
    (response : String) (originalParams : ExtractedParams) : ExtractedParams :=
  match jsonObjectMatch response with
  | none => originalParams
  | some jsonText =>
    match jsonParse jsonText with
    | none => originalParams
    | some enhanced =>
      if enhanced.amount = none then
        { enhanced with amount := some (natOr originalParams.amount 15) }
      else enhanced

/-- `enhanceWithClaude`, with the transport abstracted as an optional
response text: a transport failure (the `catch` branch) returns the
pre-enhancement parameters unchanged. -/
def enhanceWithClaude (jsonParse : String → Option ExtractedParams)
    (transportResponse : Option String) (extractedParams : ExtractedParams) : ExtractedParams :=
  match transportResponse with
  | none => extractedParams
  | some text => parseClaudeResponse jsonParse text extractedParams

/-! ## Config renderer (`yaml-generator/generator.ts`)

The YAML text is produced by `yaml.dump` and re-read by `yaml.load`; the
document is modelled as the structured object those calls round-trip.
Dynamic string-keyed objects become association lists whose order is the
JS key insertion order, so "the first key" of the source is the list head.
The fixed `attributes.vendor.nvidia[0].model` nesting of a GPU resource is
flattened into the `model` field. -/

structure ExposeTo where
  global : Bool
deriving DecidableEq

/-- One expose entry; `toEntries` is the source's `to` array. -/
structure ExposeEntry where
  port : Nat
  asPort : Nat
  toEntries : List ExposeTo
deriving DecidableEq

structure ServiceDef where
  image : String
  pull_policy : String
  expose : List ExposeEntry
  env : List String
deriving DecidableEq

structure GpuResource where
  units : Nat
  model : String
deriving DecidableEq

structure ResourcesDef where
  cpuUnits : Nat
  memorySize : String
  storageSizes : List String
  gpu : Option GpuResource
deriving DecidableEq

structure ComputeEntry where
  resources : Option ResourcesDef
deriving DecidableEq

structure PricingEntry where
  token : Option String
  amount : Option Nat
deriving DecidableEq

structure PlacementEntry where
  pricing : Option (List (String × PricingEntry))
deriving DecidableEq

structure ProfilesDef where
  name : Option String
  duration : Option String
  mode : Option String
  compute : Option (List (String × ComputeEntry))
  placement : Option (List (String × PlacementEntry))
deriving DecidableEq

structure DeployEntry where
  profile : String
  count : Nat
deriving DecidableEq

/-- A parsed document; absent sections are `none`, as after `yaml.load` of
a document that lacks them. -/
structure Document where
  version : Option String := none
  services : Option (List (String × ServiceDef)) := none
  profiles : Option ProfilesDef := none
  deployment : Option (List (String × List (String × DeployEntry))) := none
deriving DecidableEq

/-- `generateExposeConfig`. -/
def generateExposeConfig (params : ExtractedParams) : List ExposeEntry :=
  match params.ports with
  | some ports =>
    if ports.length > 0 then
      ports.map (fun p => ⟨p.port, natOr p.asPort p.port, [⟨p.global.getD true⟩]⟩)
    else [⟨8888, 8888, [⟨true⟩]⟩, ⟨3000, 3000, [⟨true⟩]⟩]
  | none => [⟨8888, 8888, [⟨true⟩]⟩, ⟨3000, 3000, [⟨true⟩]⟩]

/-- `generateEnvConfig`. -/
def generateEnvConfig (params : ExtractedParams) : List String :=
  match params.env with
  | some env => env.map (fun kv => kv.1 ++ "=" ++ kv.2)
  | none => ["JUPYTER_TOKEN=test"]

/-- `generateResourcesConfig`. -/
def generateResourcesConfig (params : ExtractedParams) : ResourcesDef :=
  { cpuUnits := natOr params.cpu 16
    memorySize := strOr params.memory "64Gi"
    storageSizes := if truthyS params.storage then [params.storage.getD "500Gi"] else ["500Gi"]
    gpu := params.gpu.map (fun g => ⟨natOr g.units 1, strOr g.model "rtx6000-ada"⟩) }

/-- `generateYaml`: the full document, every field defaulted when absent. -/
def generateYaml (params : ExtractedParams) : Document :=
  let nm := strOr params.name "py-cuda"
  let rg := strOr params.region "westcoast"
  { version := some "1.0"
    services := some [(nm,
      { image := strOr params.image defaultImage
        pull_policy := strOr params.pullPolicy "IfNotPresent"
        expose := generateExposeConfig params
        env := generateEnvConfig params })]
    profiles := some
      { name := some nm
        duration := some (strOr params.duration "2h")
        mode := some (strOr params.mode "provider")
        compute := some [(nm, ⟨some (generateResourcesConfig params)⟩)]
        placement := some [(rg, ⟨some [(nm, ⟨some "CST", some (natOr params.amount 15)⟩)]⟩)] }
    deployment := some [(nm, [(rg, ⟨nm, natOr params.count 1⟩)])] }

/-- `validateYaml` on a parsed document (a text-level parse failure is the
separate `Invalid YAML` path, not modelled here): the error list in the
source's check order, `valid` iff it is empty. -/
def validateYaml (doc : Document) : Bool × List String :=
  let versionErrs := if doc.version = some "1.0" then [] else ["Version must be \"1.0\""]
  let servicesErrs :=
    match doc.services with
    | none => ["At least one service must be defined"]
    | some svcs => if svcs.isEmpty then ["At least one service must be defined"] else []
  let profilesErrs :=
    match doc.profiles with
    | none => ["Profiles must be defined"]
    | some prof =>
      (if truthyS prof.duration then [] else ["Duration must be specified"]) ++
      (if truthyS prof.mode then [] else ["Mode must be specified"]) ++
      (match prof.compute with
       | none => ["Compute resources must be defined"]
       | some cs => if cs.isEmpty then ["Compute resources must be defined"] else []) ++
      (match prof.placement with
       | none => ["Placement must be defined"]
       | some ps =>
         if ps.isEmpty then ["Placement must be defined"]
         else
           (ps.map (fun rp =>
             match rp.2.pricing with
             | none => ["Pricing must be defined for region \"" ++ rp.1 ++ "\""]
             | some pr =>
               if pr.isEmpty then ["Pricing must be defined for region \"" ++ rp.1 ++ "\""]
               else
                 (pr.map (fun pp =>
                   if pp.2.token = some "CST" then []
                   else ["Token must be \"CST\" for profile \"" ++ pp.1 ++
                         "\" in region \"" ++ rp.1 ++ "\""])).flatten)).flatten)
  let deployErrs :=
    match doc.deployment with
    | none => ["Deployment must be defined"]
    | some ds => if ds.isEmpty then ["Deployment must be defined"] else []
  let errors := versionErrs ++ servicesErrs ++ profilesErrs ++ deployErrs
  (errors.isEmpty, errors)

/-- The conditional field patches `updateYaml` applies to the first
service. -/
def patchService (params : ExtractedParams) (sv : ServiceDef) : ServiceDef :=
  let sv := if truthyS params.image then { sv with image := params.image.getD sv.image } else sv
  let sv := if truthyS params.pullPolicy then
      { sv with pull_policy := params.pullPolicy.getD sv.pull_policy } else sv
  let sv := if params.ports.isSome then { sv with expose := generateExposeConfig params } else sv
  let sv := if params.env.isSome then { sv with env := generateEnvConfig params } else sv
  sv

/-- The conditional patches `updateYaml` applies to the first compute
profile's resources. -/
def patchResources (params : ExtractedParams) (r : ResourcesDef) : ResourcesDef :=
  let r := if truthyN params.cpu then { r with cpuUnits := params.cpu.getD r.cpuUnits } else r
  let r := if truthyS params.memory then
      { r with memorySize := params.memory.getD r.memorySize } else r
  let r := if truthyS params.storage then
      { r with storageSizes := [params.storage.getD "500Gi"] } else r
  let r := if params.gpu.isSome then
      { r with gpu := some ⟨natOr (params.gpu.bind GpuSpec.units) 1,
                            strOr (params.gpu.bind GpuSpec.model) "rtx6000-ada"⟩ } else r
  r

/-- `updateYaml` up to its `catch`: `none` models the paths on which the
source dereferences `undefined` and throws (an empty `compute`, `placement`
or first `pricing` map; an empty `services`, `deployment` or first
deployment region map when a patched field is supplied). -/
def updateYamlCore (doc : Document) (params : ExtractedParams) : Option Document := do
  let services ←
    match doc.services with
    | none => some none
    | some [] =>
      if truthyS params.image || truthyS params.pullPolicy ||
         params.ports.isSome || params.env.isSome then none
      else some (some ([] : List (String × ServiceDef)))
    | some (sv :: rest) => some (some ((sv.1, patchService params sv.2) :: rest))
  let profiles ←
    match doc.profiles with
    | none => some none
    | some prof => do
      let prof :=
        { prof with
          name := if truthyS params.name then params.name else prof.name
          duration := if truthyS params.duration then params.duration else prof.duration
          mode := if truthyS params.mode then params.mode else prof.mode }
      let compute ←
        match prof.compute with
        | none => some none
        | some [] => none
        | some (ce :: rest) =>
          some (some ((ce.1, ⟨ce.2.resources.map (patchResources params)⟩) :: rest))
      let placement ←
        match prof.placement with
        | none => some none
        | some [] => none
        | some (pe :: rest) => do
          let pricing ←
            match pe.2.pricing with
            | none => some none
            | some [] => none
            | some (pp :: prest) =>
              some (some ((pp.1,
                { pp.2 with
                  token := some "CST"
                  amount := if truthyN params.amount then params.amount else pp.2.amount })
                :: prest))
          some (some ((pe.1, ⟨pricing⟩) :: rest))
      some (some { prof with compute := compute, placement := placement })
  let deployment ←
    match doc.deployment with
    | none => some none
    | some [] => none
    | some (de :: rest) =>
      match de.2 with
      | [] =>
        if truthyS params.name || truthyN params.count then none
        else some (some ((de.1, ([] : List (String × DeployEntry))) :: rest))
      | re :: rrest =>
        some (some ((de.1,
          (re.1,
            { re.2 with
              profile := if truthyS params.name then params.name.getD re.2.profile
                         else re.2.profile
              count := if truthyN params.count then params.count.getD re.2.count
                       else re.2.count }) :: rrest) :: rest))
  some { doc with services := services, profiles := profiles, deployment := deployment }

/-- `updateYaml`: on any of the throwing paths the `catch` regenerates the
document from `params` alone. -/
def updateYaml (doc : Document) (params : ExtractedParams) : Document :=
  (updateYamlCore doc params).getD (generateYaml params)

/-- A document with every section the empty-patch update dereferences:
nonempty `services`, a `profiles` section with nonempty `compute` and
`placement` whose first placement has a nonempty `pricing`, and a nonempty
`deployment`. -/
def wellFormedDoc (doc : Document) : Bool :=
  (match doc.services with
   | some (_ :: _) => true
   | _ => false) &&
  (match doc.profiles with
   | some prof =>
     (match prof.compute with
      | some (_ :: _) => true
      | _ => false) &&
     (match prof.placement with
      | some (pe :: _) =>
        (match pe.2.pricing with
         | some (_ :: _) => true
         | _ => false)
      | _ => false)
   | none => false) &&
  (match doc.deployment with
   | some (_ :: _) => true
   | _ => false)

/-- The single field change the empty patch is claimed to make: the first
placement's first pricing token forced to the fixed constant. -/
def forceFirstToken (doc : Document) : Document :=
  { doc with
    profiles := doc.profiles.map (fun prof =>
      { prof with
        placement := prof.placement.map (fun ps =>
          match ps with
          | [] => []
          | pe :: rest =>
            (pe.1, ⟨pe.2.pricing.map (fun pr =>
              match pr with
              | [] => []
              | pp :: prest => (pp.1, { pp.2 with token := some "CST" }) :: prest)⟩) :: rest) }) }

/-- The first placement's first pricing amount of a document. -/
def firstPricingAmount (doc : Document) : Option Nat :=
  match doc.profiles with
  | none => none
  | some prof =>
    match prof.placement with
    | none => none
    | some [] => none
    | some (pe :: _) =>
      match pe.2.pricing with
      | none => none
      | some [] => none
      | some (pp :: _) => pp.2.amount

/-- The first compute profile's GPU resource of a document. -/
def firstComputeGpu (doc : Document) : Option GpuResource :=
  match doc.profiles with
  | none => none
  | some prof =>
    match prof.compute with
    | none => none
    | some [] => none
    | some (ce :: _) =>
      match ce.2.resources with
      | none => none
      | some r => r.gpu

/-! ## Theorems -/

theorem truthyS_strOr (o : Option String) (d : String) (hd : d ≠ "") :
    truthyS (some (strOr o d)) = true := by
  unfold truthyS strOr
  cases o with
  | none => simpa using hd
  | some s =>
    by_cases h : s = ""
    · simp [h, hd]
    · simp [h]

/-- C6: `validate` of a rendered document reports no errors: every field of
`generateYaml` has a hardcoded fallback, so the round trip
`validate(render(params))` is `{valid: true, errors: []}` for every
parameter set, the one produced purely from defaults included. -/
theorem c6_render_validate_roundtrip :
    (∀ p : ExtractedParams, validateYaml (generateYaml p) = (true, [])) ∧
    validateYaml (generateYaml (mergeWithDefaults emptyParams)) = (true, []) := by
  constructor
  · intro p
    have hdur := truthyS_strOr p.duration "2h" (by decide)
    have hmode := truthyS_strOr p.mode "provider" (by decide)
    simp [validateYaml, generateYaml, hdur, hmode]
  · decide

/-- C2 counterexample: on input "us-east" the extractor yields
region = "eastcoast", not the claimed "westcoast". -/
theorem c2_region_counterexample :
    (extractFromDescription "us-east").region = some "eastcoast" ∧
    (extractFromDescription "us-east").region ≠ some "westcoast" := by
  decide

/-- C2 amended: region extraction normalizes every matched keyword to one of
the two canonical values -- "westcoast"/"us-west" to "westcoast",
"eastcoast"/"us-east" to "eastcoast", and any other matched keyword to
"westcoast"; in particular "us-east" yields "eastcoast". -/
theorem c2_region_amended :
    (∀ t : String,
      (extractFromDescription t).region = none ∨
      (extractFromDescription t).region = some "westcoast" ∨
      (extractFromDescription t).region = some "eastcoast") ∧
    (extractFromDescription "us-west").region = some "westcoast" ∧
    (extractFromDescription "westcoast").region = some "westcoast" ∧
    (extractFromDescription "us-east").region = some "eastcoast" ∧
    (extractFromDescription "eastcoast").region = some "eastcoast" ∧
    (extractFromDescription "eu-west").region = some "westcoast" ∧
    (extractFromDescription "ap-southeast").region = some "westcoast" := by
  refine ⟨fun t => ?_, by decide, by decide, by decide, by decide, by decide, by decide⟩
  show (matchRegion t.data).map normalizeRegion = none ∨
    (matchRegion t.data).map normalizeRegion = some "westcoast" ∨
    (matchRegion t.data).map normalizeRegion = some "eastcoast"
  cases matchRegion t.data with
  | none => exact Or.inl rfl
  | some r =>
    right
    show some (normalizeRegion r) = some "westcoast" ∨ some (normalizeRegion r) = some "eastcoast"
    unfold normalizeRegion
    split
    · exact Or.inl rfl
    · split
      · exact Or.inr rfl
      · exact Or.inl rfl

/-- C3 counterexample: on "2 gpus" no GPU model keyword matches but a count
does, and the extractor produces a GPU spec `{units: 2}` rather than
leaving the GPU field unset. -/
theorem c3_gpu_counterexample :
    matchGpu "2 gpus".data = none ∧
    matchGpuCount "2 gpus".data = some 2 ∧
    (extractFromDescription "2 gpus").gpu = some ⟨some 2, none⟩ ∧
    (extractFromDescription "2 gpus").gpu ≠ none := by
  decide

/-- C3 amended: a count match creates a GPU spec with that unit count even
when no model keyword matches (model left unset); a model match without a
count defaults the unit count to 1; the GPU field is unset only when
neither matches. -/
theorem c3_gpu_amended :
    (∀ t : String,
      (extractFromDescription t).gpu =
        (match matchGpuCount t.data, (matchGpu t.data).map normalizeGpuModel with
         | some n, m => some ⟨some n, m⟩
         | none, some m => some ⟨some 1, some m⟩
         | none, none => none)) ∧
    (extractFromDescription "2 gpus").gpu = some ⟨some 2, none⟩ ∧
    (extractFromDescription "a100 machine").gpu = some ⟨some 1, some "a100"⟩ ∧
    (extractFromDescription "4 cores").gpu = none := by
  refine ⟨fun t => rfl, by decide, by decide, by decide⟩

/-- C1 counterexample: with current GPU `{units: 1, model: "a100"}` and a
turn answer "2 gpus", the handler's merge replaces the GPU object wholesale
(`{units: 2}`, the old model lost), differing from the claimed key-by-key
GPU merge, which would keep `model = "a100"`. -/
theorem c1_merge_counterexample :
    (handleAnswer "need a machine" { gpu := some ⟨some 1, some "a100"⟩ } "2 gpus").1.gpu =
      some ⟨some 2, none⟩ ∧
    (specMergeTurnParams { gpu := some ⟨some 1, some "a100"⟩ }
      (processDescription ("need a machine" ++ " " ++ "2 gpus")).1).gpu =
      some ⟨some 2, some "a100"⟩ ∧
    (handleAnswer "need a machine" { gpu := some ⟨some 1, some "a100"⟩ } "2 gpus").1 ≠
      specMergeTurnParams { gpu := some ⟨some 1, some "a100"⟩ }
        (processDescription ("need a machine" ++ " " ++ "2 gpus")).1 := by
  decide

/-- C1 amended: the handler concatenates `originalText ++ " " ++ answer`,
re-runs the pipeline on the synthetic text, and merges the result over
`currentParams` by plain shallow override: every top-level field -- the GPU
sub-object and the environment mapping included, as whole values -- is
taken from the new extraction when present there and from the old
parameters otherwise.  No nested key-by-key merge occurs. -/
theorem c1_merge_amended (originalDescription answer : String) (cur : ExtractedParams) :
    (handleAnswer originalDescription cur answer).1.gpu =
      ((processDescription (originalDescription ++ " " ++ answer)).1.gpu <|> cur.gpu) ∧
    (handleAnswer originalDescription cur answer).1.env =
      ((processDescription (originalDescription ++ " " ++ answer)).1.env <|> cur.env) ∧
    (handleAnswer originalDescription cur answer).1.image =
      ((processDescription (originalDescription ++ " " ++ answer)).1.image <|> cur.image) ∧
    (handleAnswer originalDescription cur answer).1.cpu =
      ((processDescription (originalDescription ++ " " ++ answer)).1.cpu <|> cur.cpu) ∧
    (handleAnswer originalDescription cur answer).1.memory =
      ((processDescription (originalDescription ++ " " ++ answer)).1.memory <|> cur.memory) ∧
    (handleAnswer originalDescription cur answer).1.storage =
      ((processDescription (originalDescription ++ " " ++ answer)).1.storage <|> cur.storage) ∧
    (handleAnswer originalDescription cur answer).1.name =
      ((processDescription (originalDescription ++ " " ++ answer)).1.name <|> cur.name) ∧
    (handleAnswer originalDescription cur answer).1.duration =
      ((processDescription (originalDescription ++ " " ++ answer)).1.duration <|> cur.duration) ∧
    (handleAnswer originalDescription cur answer).1.mode =
      ((processDescription (originalDescription ++ " " ++ answer)).1.mode <|> cur.mode) ∧
    (handleAnswer originalDescription cur answer).1.region =
      ((processDescription (originalDescription ++ " " ++ answer)).1.region <|> cur.region) ∧
    (handleAnswer originalDescription cur answer).1.amount =
      ((processDescription (originalDescription ++ " " ++ answer)).1.amount <|> cur.amount) ∧
    (handleAnswer originalDescription cur answer).1.count =
      ((processDescription (originalDescription ++ " " ++ answer)).1.count <|> cur.count) := by
  exact ⟨rfl, rfl, rfl, rfl, rfl, rfl, rfl, rfl, rfl, rfl, rfl, rfl⟩

/-- C4: "GPU model" is required exactly when the image is a GPU-workload
image and no GPU was extracted; the four unconditional requirements track
the JS-truthiness of their fields; and the list is always a sublist of the
fixed CPU, memory, storage, duration, GPU order. -/
theorem c4_missing_params (p : ExtractedParams) :
    ("GPU model" ∈ identifyMissingParams p ↔
      (gpuWorkloadImage p.image = true ∧ p.gpu = none)) ∧
    ("CPU cores" ∈ identifyMissingParams p ↔ truthyN p.cpu = false) ∧
    ("memory (RAM)" ∈ identifyMissingParams p ↔ truthyS p.memory = false) ∧
    ("storage" ∈ identifyMissingParams p ↔ truthyS p.storage = false) ∧
    ("duration" ∈ identifyMissingParams p ↔ truthyS p.duration = false) ∧
    List.Sublist (identifyMissingParams p)
      ["CPU cores", "memory (RAM)", "storage", "duration", "GPU model"] := by
  cases h1 : truthyN p.cpu <;> cases h2 : truthyS p.memory <;>
  cases h3 : truthyS p.storage <;> cases h4 : truthyS p.duration <;>
  cases h5 : gpuWorkloadImage p.image <;> cases h6 : p.gpu <;>
  simp_all [identifyMissingParams] <;> decide

theorem takeDigits_append (ds rest : List Char)
    (h : ∀ c ∈ ds, c.isDigit = true)
    (h2 : rest.head?.all (fun c => !c.isDigit) = true) :
    takeDigits (ds ++ rest) = (ds, rest) := by
  induction ds with
  | nil =>
    cases rest with
    | nil => rfl
    | cons c cs =>
      simp at h2
      simp [takeDigits, h2]
  | cons d ds ih =>
    have hd : d.isDigit = true := h d (by simp)
    have ih' := ih (fun c hc => h c (by simp [hc]))
    simp [takeDigits, hd, ih']

theorem findFirst_numLetters (ds u : List Char) (hne : ds ≠ [])
    (hd : ∀ c ∈ ds, c.isDigit = true)
    (hu1 : u.head?.all (fun c => !c.isDigit) = true)
    (hu2 : takeLetters u = (u, []))
    (hu3 : u ≠ []) :
    findFirstPos numLettersAt (ds ++ u) =
      some (natOfDigits ds, String.mk (u.map Char.toLower)) := by
  obtain ⟨d, ds', rfl⟩ : ∃ d ds', ds = d :: ds' := by
    cases ds with
    | nil => exact absurd rfl hne
    | cons d ds' => exact ⟨d, ds', rfl⟩
  have htd := takeDigits_append (d :: ds') u hd hu1
  have hf : numLettersAt ((d :: ds') ++ u) =
      some (natOfDigits (d :: ds'), String.mk (u.map Char.toLower)) := by
    unfold numLettersAt
    rw [htd]
    simp [hu2, hu3]
  show (numLettersAt ((d :: ds') ++ u) <|> findFirstPos numLettersAt (ds' ++ u)) =
    some (natOfDigits (d :: ds'), String.mk (u.map Char.toLower))
  rw [hf]
  rfl

theorem calculateAmount_parse (d : String) (v : Nat) (unit : String)
    (h : findFirstPos numLettersAt d.data = some (v, unit)) :
    calculateAmount { duration := some d } =
      (if unit = "h" then v * 3
       else if unit = "d" then v * 24 * 3
       else if unit = "mon" then v * 30 * 24 * 3
       else 6) := by
  show (match findFirstPos numLettersAt d.data with
        | none => 6
        | some vu =>
          if vu.2 = "h" then vu.1 * 3
          else if vu.2 = "d" then vu.1 * 24 * 3
          else if vu.2 = "mon" then vu.1 * 30 * 24 * 3
          else 6) = _
  rw [h]

/-- C5: the extractor always sets an amount; `calculateAmount` is 3 per
hour over the parsed duration with day = 24 h and month = 30 d; "3h" gives
9 and "2d" gives 144; an absent or unrecognized duration gives the
extractor default 6; and the renderer's own fallback when the amount is
absent is 15. -/
theorem c5_amount_policy :
    (∀ t : String, ((extractFromDescription t).amount).isSome = true) ∧
    (∀ p : ExtractedParams, p.duration = none → calculateAmount p = 6) ∧
    (∀ ds : List Char, ds ≠ [] → (∀ c ∈ ds, c.isDigit = true) →
      calculateAmount { duration := some (String.mk (ds ++ ['h'])) } = natOfDigits ds * 3 ∧
      calculateAmount { duration := some (String.mk (ds ++ ['d'])) } =
        natOfDigits ds * 24 * 3 ∧
      calculateAmount { duration := some (String.mk (ds ++ ['m', 'o', 'n'])) } =
        natOfDigits ds * 30 * 24 * 3) ∧
    calculateAmount { duration := some "3h" } = 9 ∧
    calculateAmount { duration := some "2d" } = 144 ∧
    calculateAmount { duration := some "2w" } = 6 ∧
    (extractFromDescription "run it for 3 hours").amount = some 9 ∧
    (extractFromDescription "run it for 2 days").amount = some 144 ∧
    (extractFromDescription "no duration given").amount = some 6 ∧
    (∀ p : ExtractedParams, p.amount = none → firstPricingAmount (generateYaml p) = some 15) := by
  refine ⟨fun t => rfl, ?_, ?_, by decide, by decide, by decide, by decide, by decide, by decide, ?_⟩
  · intro p h
    unfold calculateAmount
    rw [h]
  · intro ds hne hd
    refine ⟨?_, ?_, ?_⟩
    · have h := findFirst_numLetters ds ['h'] hne hd (by decide) (by decide) (by decide)
      rw [show String.mk (['h'].map Char.toLower) = "h" from by decide] at h
      rw [calculateAmount_parse (String.mk (ds ++ ['h'])) (natOfDigits ds) "h" h]
      simp
    · have h := findFirst_numLetters ds ['d'] hne hd (by decide) (by decide) (by decide)
      rw [show String.mk (['d'].map Char.toLower) = "d" from by decide] at h
      rw [calculateAmount_parse (String.mk (ds ++ ['d'])) (natOfDigits ds) "d" h]
      simp
    · have h := findFirst_numLetters ds ['m', 'o', 'n'] hne hd (by decide) (by decide) (by decide)
      rw [show String.mk (['m', 'o', 'n'].map Char.toLower) = "mon" from by decide] at h
      rw [calculateAmount_parse (String.mk (ds ++ ['m', 'o', 'n'])) (natOfDigits ds) "mon" h]
      simp
  · intro p h
    simp [firstPricingAmount, generateYaml, h, natOr]

theorem c5_amount_policy_witness :
    calculateAmount emptyParams = 6 ∧
    calculateAmount { duration := some (String.mk (['3'] ++ ['h'])) } = natOfDigits ['3'] * 3 ∧
    firstPricingAmount (generateYaml emptyParams) = some 15 :=
  ⟨c5_amount_policy.2.1 emptyParams rfl,
   (c5_amount_policy.2.2.1 ['3'] (by decide) (by decide)).1,
   c5_amount_policy.2.2.2.2.2.2.2.2.2 emptyParams rfl⟩

/-- C7: on a well-formed document the empty-parameter update changes
nothing but the first placement's first pricing token, which it forces to
"CST" even when already correct. -/
theorem c7_update_empty_patch (doc : Document) (h : wellFormedDoc doc = true) :
    updateYaml doc emptyParams = forceFirstToken doc := by
  obtain ⟨ver, svcs, prof, dep⟩ := doc
  cases svcs with
  | none => simp [wellFormedDoc] at h
  | some svl =>
  cases svl with
  | nil => simp [wellFormedDoc] at h
  | cons sv srest =>
  cases prof with
  | none => simp [wellFormedDoc] at h
  | some profv =>
  obtain ⟨pn, pd, pm, comp, plac⟩ := profv
  cases comp with
  | none => simp [wellFormedDoc] at h
  | some compl =>
  cases compl with
  | nil => simp [wellFormedDoc] at h
  | cons ce crest =>
  cases plac with
  | none => simp [wellFormedDoc] at h
  | some placl =>
  cases placl with
  | nil => simp [wellFormedDoc] at h
  | cons pe prest =>
  obtain ⟨rn, pentry⟩ := pe
  obtain ⟨pricing⟩ := pentry
  cases pricing with
  | none => simp [wellFormedDoc] at h
  | some prl =>
  cases prl with
  | nil => simp [wellFormedDoc] at h
  | cons pp pps =>
  cases dep with
  | none => simp [wellFormedDoc] at h
  | some depl =>
  cases depl with
  | nil => simp [wellFormedDoc] at h
  | cons de drest =>
  obtain ⟨dn, regions⟩ := de
  obtain ⟨cn, centry⟩ := ce
  obtain ⟨res⟩ := centry
  cases res with
  | none =>
    cases regions with
    | nil => rfl
    | cons re rrest => rfl
  | some r =>
    cases regions with
    | nil => rfl
    | cons re rrest => rfl

theorem c7_update_empty_patch_witness :
    wellFormedDoc (generateYaml (mergeWithDefaults emptyParams)) = true ∧
    updateYaml (generateYaml (mergeWithDefaults emptyParams)) emptyParams =
      forceFirstToken (generateYaml (mergeWithDefaults emptyParams)) :=
  ⟨by decide, c7_update_empty_patch (generateYaml (mergeWithDefaults emptyParams)) (by decide)⟩

/-- C8: a transport failure or a reply with no embedded structured object
leaves the pre-enhancement parameters in force; a parsed object lacking an
amount has it backfilled from the pre-enhancement amount or the fixed
default 15. -/
theorem c8_enhancement_fallback (jsonParse : String → Option ExtractedParams)
    (pre : ExtractedParams) :
    enhanceWithClaude jsonParse none pre = pre ∧
    (∀ response, jsonObjectMatch response = none →
      enhanceWithClaude jsonParse (some response) pre = pre) ∧
    (∀ response jsonText, jsonObjectMatch response = some jsonText →
      jsonParse jsonText = none →
      enhanceWithClaude jsonParse (some response) pre = pre) ∧
    (∀ response jsonText enhanced, jsonObjectMatch response = some jsonText →
      jsonParse jsonText = some enhanced → enhanced.amount = none →
      enhanceWithClaude jsonParse (some response) pre =
        { enhanced with amount := some (natOr pre.amount 15) }) := by
  refine ⟨rfl, ?_, ?_, ?_⟩
  · intro r h
    show parseClaudeResponse jsonParse r pre = pre
    unfold parseClaudeResponse
    rw [h]
  · intro r j h1 h2
    show parseClaudeResponse jsonParse r pre = pre
    simp [parseClaudeResponse, h1, h2]
  · intro r j e h1 h2 h3
    show parseClaudeResponse jsonParse r pre = _
    simp [parseClaudeResponse, h1, h2, h3]

theorem c8_enhancement_fallback_witness :
    enhanceWithClaude (fun _ => some { cpu := some 8 })
      (some "reply: \x7b\"cpu\": 8\x7d done") { amount := some 6 } =
      { cpu := some 8, amount := some 6 } ∧
    enhanceWithClaude (fun _ => some { cpu := some 8 })
      (some "no structured object") { amount := some 6 } = { amount := some 6 } :=
  ⟨(c8_enhancement_fallback (fun _ => some { cpu := some 8 }) { amount := some 6 }).2.2.2
      "reply: \x7b\"cpu\": 8\x7d done" "\x7b\"cpu\": 8\x7d" { cpu := some 8 }
      (by decide) rfl rfl,
   (c8_enhancement_fallback (fun _ => some { cpu := some 8 }) { amount := some 6 }).2.1
      "no structured object" (by decide)⟩

/-- C9: validation demands a top-level version equal to "1.0"; any document
with an absent or different version is invalid with the version error. -/
theorem c9_version_check (doc : Document) (h : doc.version ≠ some "1.0") :
    (validateYaml doc).1 = false ∧
    "Version must be \"1.0\"" ∈ (validateYaml doc).2 := by
  constructor
  · simp [validateYaml, h]
  · simp [validateYaml, h]

theorem c9_version_check_witness :
    (validateYaml {}).1 = false ∧
    "Version must be \"1.0\"" ∈ (validateYaml ({} : Document)).2 :=
  c9_version_check {} (by decide)

/-- C10: the defaults merge always installs a GPU section, defaulting the
unit count to 1 and the model to "rtx6000-ada" where absent, so a pipeline
run with zero missing parameters always carries a GPU spec and its rendered
document a GPU resource block. -/
theorem c10_gpu_always_installed :
    (∀ p : ExtractedParams,
      (mergeWithDefaults p).gpu =
        some ⟨(p.gpu.bind GpuSpec.units) <|> some 1,
              (p.gpu.bind GpuSpec.model) <|> some "rtx6000-ada"⟩) ∧
    (∀ p : ExtractedParams,
      (firstComputeGpu (generateYaml (mergeWithDefaults p))).isSome = true) ∧
    (∀ description : String, (processDescription description).2 = [] →
      (processDescription description).1.gpu =
        some ⟨((extractFromDescription description).gpu.bind GpuSpec.units) <|> some 1,
              ((extractFromDescription description).gpu.bind GpuSpec.model) <|>
                some "rtx6000-ada"⟩) := by
  refine ⟨fun p => rfl, fun p => rfl, ?_⟩
  intro d h
  have h' : identifyMissingParams (extractFromDescription d) = [] := h
  show (if (identifyMissingParams (extractFromDescription d)).isEmpty then
          mergeWithDefaults (extractFromDescription d)
        else extractFromDescription d).gpu = _
  rw [h']
  rfl

theorem c10_gpu_always_installed_witness :
    (processDescription "8 cores 16GB RAM 100GB storage 3 hours").2 = [] ∧
    (processDescription "8 cores 16GB RAM 100GB storage 3 hours").1.gpu =
      some ⟨some 1, some "rtx6000-ada"⟩ :=
  ⟨by decide,
   (c10_gpu_always_installed.2.2 "8 cores 16GB RAM 100GB storage 3 hours"
      (by decide)).trans (by decide)⟩

end Spheron
